import Mathlib

/-!
Verification development for the FX predictor repository.

The repository ships several near-identical application variants:
* `aws_fx_app_optimized.py`  — model-driven forecaster, full feature profile
  (17 features), clamp ceiling 10%;
* `aws_fx_app_final.py`      — model-driven forecaster, lightweight feature
  profile (7 features), clamp ceiling 5%;
* `aws_fx_minimal_final.py` / `aws_fx_phase2_1.py` — heuristic trend/oscillator
  forecaster (`predict_rate` / `predict_multi_day`) with a simulated-data
  fallback provider.

All numeric code is embedded over `ℚ` (the Python sources compute with IEEE
doubles; the algorithmic structure — comparisons, clamps, averages — is
faithfully mirrored in exact rational arithmetic).  Random draws
(`random.uniform(...)`) are injected as explicit parameters.  The fitted
`RandomForestRegressor` is represented as an uninterpreted prediction function
`List ℚ → ℚ`: none of the claims depends on the internals of the fit, only on
how its output is used.
-/

namespace FxApp

/-- Python `round(x, n)`: round to `n` decimal places, ties to even.  Used by
the heuristic engine when storing indicator values and rates. -/
def pyRound (n : ℕ) (q : ℚ) : ℚ :=
  let s : ℚ := q * 10 ^ n
  let f : ℤ := ⌊s⌋
  let r : ℤ :=
    if 1 / 2 < s - f then f + 1
    else if s - f < 1 / 2 then f
    else if f % 2 = 0 then f else f + 1
  (r : ℚ) / 10 ^ n

/-- Trailing slice `l[-n:]` of a Python list. -/
def lastN (n : ℕ) (l : List α) : List α := l.drop (l.length - n)

/-- Output of `calculate_technical_indicators` (the dict
`{"ma5": …, "ma10": …, "rsi": …}`), with the `round(·, 4)` / `round(·, 2)`
applied by the code. -/
structure Indicators where
  ma5 : ℚ
  ma10 : ℚ
  rsi : ℚ
deriving DecidableEq

/-- The length guard of `calculate_technical_indicators`: rates shorter than
5 are replaced by five copies of `base_rates["USD/JPY"] = 150.0`. -/
def paddedRates (rates0 : List ℚ) : List ℚ :=
  if rates0.length < 5 then List.replicate 5 (150 : ℚ) else rates0

/-- Consecutive changes `rates[i] - rates[i-1]` for `i in range(1, len)`. -/
def diffsOf (rates : List ℚ) : List ℚ :=
  List.zipWith (fun a b => a - b) (rates.drop 1) rates

/-- `gains`: the positive changes, zero-filled otherwise. -/
def gainsOf (rates : List ℚ) : List ℚ :=
  (diffsOf rates).map fun c => if 0 < c then c else 0

/-- `losses`: `abs(change)` for non-positive changes, zero-filled otherwise. -/
def lossesOf (rates : List ℚ) : List ℚ :=
  (diffsOf rates).map fun c => if 0 < c then 0 else |c|

/-- `avg_gain = sum(gains[-14:]) / min(14, len(gains)) if gains else 0.01`. -/
def avgGainOf (rates : List ℚ) : ℚ :=
  if gainsOf rates = [] then 1 / 100
  else (lastN 14 (gainsOf rates)).sum / ((min 14 (gainsOf rates).length : ℕ) : ℚ)

/-- `avg_loss = sum(losses[-14:]) / min(14, len(losses)) if losses else 0.01`. -/
def avgLossOf (rates : List ℚ) : ℚ :=
  if lossesOf rates = [] then 1 / 100
  else (lastN 14 (lossesOf rates)).sum / ((min 14 (lossesOf rates).length : ℕ) : ℚ)

/-- `rs = avg_gain / avg_loss if avg_loss != 0 else 1` — the division-by-zero
guard of the RSI computation. -/
def rsOf (rates : List ℚ) : ℚ :=
  if avgLossOf rates ≠ 0 then avgGainOf rates / avgLossOf rates else 1

/-- `rsi = 100 - (100 / (1 + rs))`, before the final `round(·, 2)`. -/
def rsiRawOf (rates : List ℚ) : ℚ := 100 - 100 / (1 + rsOf rates)

/-- `FXPredictor.calculate_technical_indicators` from
`aws_fx_minimal_final.py` (lines 45–75) and `aws_fx_phase2_1.py`
(lines 139–169); the two copies are identical.
`ma5 = sum(rates[-5:]) / 5`, `ma10 = sum(rates[-10:]) / min(10, len(rates))`,
RSI as in `rsiRawOf`; the dict stores `round(ma, 4)` and `round(rsi, 2)`. -/
def calculateTechnicalIndicators (rates0 : List ℚ) : Indicators :=
  let rates := paddedRates rates0
  ⟨pyRound 4 ((lastN 5 rates).sum / 5),
    pyRound 4 ((lastN 10 rates).sum / ((min 10 rates.length : ℕ) : ℚ)),
    pyRound 2 (rsiRawOf rates)⟩

/-- The trend multiplier of `FXPredictor.predict_rate`
(`aws_fx_minimal_final.py` lines 93–104, `aws_fx_phase2_1.py` lines 189–200):
start at 1.001 / 0.999 / 1 from the MA comparison, then multiply by 0.998 when
RSI > 70 and by 1.002 when RSI < 30 (the code's if/elif chain). -/
def trendFactor (ind : Indicators) : ℚ :=
  let t : ℚ :=
    if ind.ma10 < ind.ma5 then 1001 / 1000
    else if ind.ma5 < ind.ma10 then 999 / 1000
    else 1
  if 70 < ind.rsi then t * (998 / 1000)
  else if ind.rsi < 30 then t * (1002 / 1000)
  else t

/-- The dict returned by the heuristic `predict_rate`.  `predictedRate`,
`change` and `changePercent` are kept before the final `round(·, 4)` /
`round(·, 2)` the code applies for serialization (the spec's clamp invariant is
stated "even before rounding"). -/
structure HeuristicPrediction where
  currentRate : ℚ
  predictedRate : ℚ
  change : ℚ
  changePercent : ℚ
  confidence : ℤ
  indicators : Indicators
  daysAhead : ℕ
deriving DecidableEq

/-- Core of `FXPredictor.predict_rate` (`aws_fx_minimal_final.py` lines
77–123, `aws_fx_phase2_1.py` lines 171–221; identical bodies).  The random
draws are injected: `histRates` stands for the simulated
`historical_rates` and `volDraw` for the `random.uniform(-0.005, 0.005)`
sample (`volatility = volDraw * uncertainty_factor`).

* `uncertainty_factor = 1 + days_ahead * 0.002`;
* `predicted_rate = current_rate * trend_factor ** days_ahead * (1 + volatility)`;
* `confidence = max(60, 85 - days_ahead * 2)`. -/
def predictCore (currentRate : ℚ) (histRates : List ℚ) (daysAhead : ℕ)
    (volDraw : ℚ) : HeuristicPrediction :=
  let ind := calculateTechnicalIndicators histRates
  let tf := trendFactor ind
  let uncertainty : ℚ := 1 + (daysAhead : ℚ) * (2 / 1000)
  let volatility : ℚ := volDraw * uncertainty
  let predicted : ℚ := currentRate * tf ^ daysAhead * (1 + volatility)
  ⟨currentRate, predicted, predicted - currentRate,
    (predicted - currentRate) / currentRate * 100,
    max 60 (85 - 2 * (daysAhead : ℤ)), ind, daysAhead⟩

/-- Result of `FXDataProvider.get_real_fx_rate` / `_get_simulated_rate`
(`aws_fx_phase2_1.py`): the rate plus the `"source"` tag. -/
structure RateData where
  rate : ℚ
  source : String
deriving DecidableEq

/-- The relevant fields of the external exchange-rate API payload
(`data["rates"]["JPY"]`, `data["rates"]["EUR"]`). -/
structure ApiRates where
  jpy : ℚ
  eur : ℚ
deriving DecidableEq

/-- `FXDataProvider.fallback_rates` of `aws_fx_phase2_1.py` (lines 44–48),
with the `.get(pair, 100.0)` default. -/
def fallbackRate (pair : String) : ℚ :=
  if pair = "USD/JPY" then 150
  else if pair = "EUR/JPY" then 160
  else if pair = "EUR/USD" then 108 / 100
  else 100

/-- `FXDataProvider._get_simulated_rate` (`aws_fx_phase2_1.py` lines 105–116):
`rate = base * (1 + variation)` with `variation = random.uniform(-0.02, 0.02)`
injected as a parameter; tagged `"Simulated"`. -/
def simulatedRate (pair : String) (variation : ℚ) : RateData :=
  ⟨pyRound 4 (fallbackRate pair * (1 + variation)), "Simulated"⟩

/-- `FXDataProvider._parse_exchange_rate_api` (`aws_fx_phase2_1.py` lines
77–103), on a payload that does contain the JPY and EUR rates. -/
def parseExchangeRateApi (d : ApiRates) (pair : String) : RateData :=
  let rate : ℚ :=
    if pair = "USD/JPY" then d.jpy
    else if pair = "EUR/JPY" then d.jpy / d.eur
    else if pair = "EUR/USD" then 1 / d.eur
    else fallbackRate pair
  ⟨pyRound 4 rate, "API"⟩

/-- `FXDataProvider.get_real_fx_rate` (`aws_fx_phase2_1.py` lines 50–75).
`fetched = none` covers every unavailable case the code handles: missing
`requests` library, non-200 status, request exception, or parse failure — all
of which return `_get_simulated_rate(pair)`. -/
def getRealFxRate (fetched : Option ApiRates) (pair : String) (variation : ℚ) :
    RateData :=
  match fetched with
  | none => simulatedRate pair variation
  | some d => parseExchangeRateApi d pair

/-- One element of the `predict_multi_day` output: the `predict_rate` dict plus
the `"date"` field, `(now + timedelta(days=day))`, modelled as the day offset
from now. -/
structure HeuristicStep where
  pred : HeuristicPrediction
  dateOffset : ℕ
deriving DecidableEq

/-- `FXPredictor.predict_rate` of `aws_fx_phase2_1.py`: current rate from the
data provider, then the shared heuristic core. -/
def predictRatePhase (fetched : Option ApiRates) (pair : String)
    (variation : ℚ) (hist : List ℚ) (daysAhead : ℕ) (volDraw : ℚ) :
    HeuristicPrediction :=
  predictCore (getRealFxRate fetched pair variation).rate hist daysAhead volDraw

/-- `FXPredictor.predict_multi_day` (`aws_fx_phase2_1.py` lines 223–230,
`aws_fx_minimal_final.py` lines 125–132): `for day in range(1, days + 1)`,
one `predict_rate` call per day, each with fresh random draws (injected here
as the per-day functions `varF`, `histF`, `volF`). -/
def predictMultiDay (fetched : Option ApiRates) (pair : String)
    (varF : ℕ → ℚ) (histF : ℕ → List ℚ) (volF : ℕ → ℚ) (days : ℕ) :
    List HeuristicStep :=
  (List.range days).map fun k =>
    ⟨predictRatePhase fetched pair (varF (k + 1)) (histF (k + 1)) (k + 1)
        (volF (k + 1)), k + 1⟩

/-- The `self.models[symbol]` entry written by `train_model`
(`aws_fx_app_optimized.py` lines 173–179, `aws_fx_app_final.py` lines
167–173): fitted model (as its prediction function), feature-name list,
held-out MAE, last feature row, last close. -/
structure ModelInfo where
  model : List ℚ → ℚ
  features : List String
  mae : ℚ
  lastData : List ℚ
  lastClose : ℚ

/-- One element of the `predictions` list built by `predict_future`.
`raw` records the pre-clamp model output `model.predict(latest_data)[0]`
(not serialized by the code; kept so the clamp can be reasoned about).
`predictedPrice`, `change` are pre-`round(·, 4)`; `changeRate` is the
fractional change (the code serializes `100 * changeRate` rounded to 2). -/
structure PredStep where
  day : ℕ
  raw : ℚ
  predictedPrice : ℚ
  change : ℚ
  changeRate : ℚ
deriving DecidableEq

/-- The clamp of `predict_future`: `change_rate = (pred - cur) / cur`; if
`abs(change_rate) > ceiling` then `change_rate := ±ceiling` and
`pred := cur * (1 + change_rate)` (`aws_fx_app_optimized.py` lines 211–214
with ceiling 0.1, `aws_fx_app_final.py` lines 205–208 with ceiling 0.05). -/
def clampPred (ceiling cur raw : ℚ) : ℚ :=
  let cr := (raw - cur) / cur
  if ceiling < |cr| then cur * (1 + (if 0 < cr then ceiling else -ceiling))
  else raw

/-- The `for day in range(1, days + 1)` loop of
`FXPredictor.predict_future` in `aws_fx_app_optimized.py` (lines 207–226):
`latest_data` is never reassigned, so each iteration feeds the same seed
vector to the model; after appending the step the code sets
`current_close = pred_price` (rolling baseline).  `change` and `change_rate`
are computed against the pre-update `current_close`. -/
def predictLoopOpt (model : List ℚ → ℚ) (latest : List ℚ) :
    ℕ → ℕ → ℚ → List PredStep
  | _, 0, _ => []
  | day, n + 1, cur =>
    let raw := model latest
    let pred := clampPred (1 / 10) cur raw
    ⟨day, raw, pred, pred - cur, (pred - cur) / cur⟩ ::
      predictLoopOpt model latest (day + 1) n pred

/-- The prediction loop of `FXPredictor.predict_future` in
`aws_fx_app_final.py` (lines 201–218): `latest_data` is never reassigned and
`current_close = model_info['last_close']` is never rolled forward; `change`
and `change_rate` are computed against `model_info['last_close']`. -/
def predictLoopFinal (model : List ℚ → ℚ) (latest : List ℚ) (lastClose : ℚ) :
    ℕ → ℕ → List PredStep
  | _, 0 => []
  | day, n + 1 =>
    let raw := model latest
    let pred := clampPred (1 / 20) lastClose raw
    ⟨day, raw, pred, pred - lastClose, (pred - lastClose) / lastClose⟩ ::
      predictLoopFinal model latest lastClose (day + 1) n

/-- Steps of the optimized (full-profile, 10% ceiling) `predict_future`. -/
def forecastOptSteps (mi : ModelInfo) (days : ℕ) : List PredStep :=
  predictLoopOpt mi.model mi.lastData 1 days mi.lastClose

/-- Steps of the final (lightweight-profile, 5% ceiling) `predict_future`. -/
def forecastFinalSteps (mi : ModelInfo) (days : ℕ) : List PredStep :=
  predictLoopFinal mi.model mi.lastData mi.lastClose 1 days

/-- The dict returned by the optimized `predict_future` (lines 228–234):
current price, MAE and the per-day steps. -/
structure ForecastOut where
  currentPrice : ℚ
  mae : ℚ
  steps : List PredStep

/-- Builds the optimized `predict_future` return value from a models entry. -/
def forecastOutOpt (mi : ModelInfo) (days : ℕ) : ForecastOut :=
  ⟨mi.lastClose, mi.mae, forecastOptSteps mi days⟩

/-- `self.models` — a Python dict keyed by the symbol string. -/
abbrev Cache := List (String × ModelInfo)

/-- Dict lookup `self.models[symbol]` / `symbol in self.models`. -/
def lookupCache : Cache → String → Option ModelInfo
  | [], _ => none
  | (k, v) :: rest, s => if k = s then some v else lookupCache rest s

/-- Dict assignment `self.models[symbol] = …`: replaces any entry with the
same key (Python dict keys are unique). -/
def setEntry (c : Cache) (s : String) (mi : ModelInfo) : Cache :=
  (s, mi) :: c.filter fun p => decide (p.1 ≠ s)

/-- Number of cache entries stored under a given symbol. -/
def keyCount (c : Cache) (s : String) : ℕ :=
  (c.filter fun p => decide (p.1 = s)).length

/-- `FXPredictor.predict_future` of `aws_fx_app_optimized.py` (lines
188–198): on a cache miss, `train_model` runs first (its outcome is the
`trainResult` parameter — `none` when it returned `False`); on failure the
method returns `None`.  The `Bool` component records whether `train_model`
was invoked. -/
def predictFutureOpt (c : Cache) (symbol : String)
    (trainResult : Option ModelInfo) (days : ℕ) :
    Cache × Bool × Option ForecastOut :=
  match lookupCache c symbol with
  | some mi => (c, false, some (forecastOutOpt mi days))
  | none =>
    match trainResult with
    | none => (c, true, none)
    | some mi => (setEntry c symbol mi, true, some (forecastOutOpt mi days))

/-- `split_index = int(len(X) * 0.8)`.  For the list lengths a process can
hold, `int(n * 0.8)` on IEEE doubles equals `⌊4n/5⌋` (the relative error of
the double nearest 0.8 is below half an ulp of every product), so the split
index is embedded as exact natural division. -/
def splitIndex (n : ℕ) : ℕ := 4 * n / 5

/-- Rows surviving `create_features(...).dropna()` in `aws_fx_app_final.py`
for a close series of length `n`.  Column warm-ups: `SMA_5` needs index ≥ 4,
`SMA_20` ≥ 19, `RSI(14)` ≥ 14, `Returns` ≥ 1, `Volatility`
(= `Returns.rolling(10).std()`) ≥ 10, `Close_lag_3` ≥ 3; `dropna` keeps the
indices ≥ 19, so `n - 19` rows remain (0 when `n < 20`). -/
def usableRowsFinal (n : ℕ) : ℕ := n - 19

/-- Rows surviving `create_features(...).dropna()` in
`aws_fx_app_optimized.py`: the extra `SMA_50` column pushes the warm-up to
index 49, so `n - 49` rows remain. -/
def usableRowsOpt (n : ℕ) : ℕ := n - 49

/-- Outcome of `FXPredictor.train_model` in `aws_fx_app_final.py` (lines
124–180) as a function of the series length: the code has no explicit
row-count check; it fails only when the fit raises — which happens exactly
when the training slice `X[:int(len(X)*0.8)]` is empty (`sklearn` refuses an
empty fit; the `except` clause turns that into `return False`).  `fitted`
abstracts the models entry built on success. -/
def trainModelFinal (fitted : ModelInfo) (n : ℕ) : Option ModelInfo :=
  if 1 ≤ splitIndex (usableRowsFinal n) then some fitted else none

/-- `train_model` of `aws_fx_app_optimized.py` including the data fetch:
`get_fx_data` returning `None` (empty / failed download) aborts with
`False`; otherwise the same empty-slice condition as the final variant,
with the optimized warm-up. -/
def trainModelOpt (fitted : ModelInfo) (data : Option (List ℚ)) :
    Option ModelInfo :=
  match data with
  | none => none
  | some closes =>
    if 1 ≤ splitIndex (usableRowsOpt closes.length) then some fitted else none

/-- The final-variant pipeline from a series length to forecast steps:
train (lazily), then run the prediction loop; `None` from training is
propagated (`predict_future` returns `None`). -/
def predictFromSeriesFinal (fitted : ModelInfo) (n days : ℕ) :
    Option (List PredStep) :=
  (trainModelFinal fitted n).map fun mi => forecastFinalSteps mi days

/-- The optimized pipeline from raw data availability to the
`predict_future` result (empty cache): data failure → training failure →
`None`. -/
def predictFutureOptData (c : Cache) (symbol : String) (fitted : ModelInfo)
    (data : Option (List ℚ)) (days : ℕ) : Cache × Bool × Option ForecastOut :=
  predictFutureOpt c symbol (trainModelOpt fitted data) days

/-- One row of the feature matrix after `dropna`: the feature vector
`df[feature_columns]` and the same row's `df['Close']`. -/
structure Row where
  features : List ℚ
  close : ℚ
deriving DecidableEq

/-- `X = df[feature_columns]…; y = df['Close']` (`aws_fx_app_optimized.py`
lines 151–152, `aws_fx_app_final.py` lines 145–146): the target sequence is
the close column of the same rows — no shift is applied. -/
def trainXY (df : List Row) : List (List ℚ) × List ℚ :=
  (df.map Row.features, df.map Row.close)

/-- Modelled from the spec: "fits a regression model on the feature matrix
against next-step close price" — under those words the target for row `i`
would be the close of row `i + 1`.  Used only for comparison with `trainXY`,
the translation of the source. -/
def specNextStepTargets (df : List Row) : List ℚ :=
  (df.drop 1).map Row.close

/-- `mean_absolute_error(y, model.predict(X))` over a slice of rows. -/
def maeOn (f : List ℚ → ℚ) (rows : List Row) : ℚ :=
  (rows.map fun r => |f r.features - r.close|).sum / (rows.length : ℚ)

/-- The chronological split and held-out evaluation of `train_model`
(`aws_fx_app_optimized.py` lines 154–171, `aws_fx_app_final.py` lines
148–165): `X_train, X_test = X[:split_index], X[split_index:]` and the MAE
is computed on the test slice only. -/
def trainEvalSplit (f : List ℚ → ℚ) (rows : List Row) :
    List Row × List Row × ℚ :=
  let tr := rows.take (splitIndex rows.length)
  let te := rows.drop (splitIndex rows.length)
  (tr, te, maeOn f te)

/-- A concrete models entry used to instantiate witnesses. -/
def mi0 : ModelInfo :=
  ⟨fun _ => 200, ["SMA_5"], 1, [150], 150⟩

/-- A concrete two-row feature matrix with distinct closes. -/
def df2 : List Row := [⟨[1], 100⟩, ⟨[2], 101⟩]

/-- A concrete 6-point rate history whose 5-step MA (2) exceeds its 10-step
MA (1.8333) while RSI = 50 — so the heuristic trend multiplier is exactly
1.001 (used to evaluate the heuristic strategy on concrete input). -/
def trendRates : List ℚ := [1, 1, 1, 1, 1, 6]

/-- C6: for the heuristic strategy the confidence score is
`max(60, 85 - 2 * days_ahead)` — it starts from the base constant 85,
decreases linearly (slope 2 per day) with the day offset, is floored at 60,
is antitone in consecutive day offsets, and never drops below 60. -/
theorem confidence_decay (c c' : ℚ) (l l' : List ℚ) (v v' : ℚ) (d : ℕ) :
    (predictCore c' l' (d + 1) v').confidence ≤ (predictCore c l d v).confidence ∧
    60 ≤ (predictCore c l d v).confidence ∧
    (predictCore c l d v).confidence = max 60 (85 - 2 * (d : ℤ)) := by
  refine ⟨?_, le_max_left _ _, rfl⟩
  show max 60 (85 - 2 * ((d : ℤ) + 1)) ≤ max 60 (85 - 2 * (d : ℤ))
  exact max_le_max le_rfl (by omega)

/-- C7: the heuristic trend multiplier is 1.001 when MA5 exceeds MA10,
0.999 when it is below, 1 when equal; it is further multiplied by 0.998 when
RSI > 70 and by 1.002 when RSI < 30; and the predicted rate applies the
multiplier raised to the power of the day offset to the current rate
(together with the injected volatility term). -/
theorem trend_multiplier_spec (cur : ℚ) (hist : List ℚ) (d : ℕ) (v : ℚ) :
    (predictCore cur hist d v).predictedRate
      = cur * trendFactor (calculateTechnicalIndicators hist) ^ d
          * (1 + v * (1 + (d : ℚ) * (2 / 1000))) ∧
    ∀ ind : Indicators,
      trendFactor ind =
        (if ind.ma10 < ind.ma5 then (1001 / 1000 : ℚ)
         else if ind.ma5 < ind.ma10 then 999 / 1000 else 1) *
        (if 70 < ind.rsi then (998 / 1000 : ℚ)
         else if ind.rsi < 30 then 1002 / 1000 else 1) := by
  refine ⟨rfl, fun ind => ?_⟩
  unfold trendFactor
  split_ifs <;> ring

/-- C2 (amended): with the market-data collaborator unavailable
(`fetched = none`) the phase-2.1 heuristic forecast still succeeds: the
provider falls back to the simulated rate and `predict_multi_day` returns
exactly `days` steps whose dates are now + 1, now + 2, …, now + days —
strictly increasing by one calendar day.  (The model-driven variant instead
aborts on data failure; see the counterexample.) -/
theorem fallback_on_unavailable (pair : String) (varF : ℕ → ℚ)
    (histF : ℕ → List ℚ) (volF : ℕ → ℚ) (days : ℕ) (v : ℚ) :
    (predictMultiDay none pair varF histF volF days).length = days ∧
    (predictMultiDay none pair varF histF volF days).map HeuristicStep.dateOffset
      = List.range' 1 days ∧
    (getRealFxRate none pair v).source = "Simulated" := by
  refine ⟨by simp [predictMultiDay], ?_, rfl⟩
  simp only [predictMultiDay, List.map_map, Function.comp_def,
    List.range'_eq_map_range]
  exact List.map_congr_left fun k _ => Nat.add_comm k 1

/-- C2 counterexample: in `aws_fx_app_optimized.py` a data-source failure
(`get_fx_data` returns `None`) makes `train_model` fail and `predict_future`
return `None` — the forecast does not succeed and no heuristic fallback
runs. -/
theorem model_variant_no_fallback_cex :
    (predictFutureOptData [] "USDJPY=X" mi0 none 10).2.2 = none := rfl

/-- Index/map commutation for the close column. -/
theorem getD_map_close (df : List Row) (i : ℕ) (h : i < df.length) :
    (df.map Row.close).getD i 0 = (df.getD i ⟨[], 0⟩).close := by
  induction df generalizing i with
  | nil => simp at h
  | cons a t ih =>
    cases i with
    | zero => rfl
    | succ j => simpa using ih j (by simpa using h)

/-- C3 (amended): the training target for the feature row at time-step `i`
is the close price at the same time-step `i` (`y = df['Close']` with no
shift), and the feature and target sequences have equal length. -/
theorem train_target_same_step (df : List Row) (i : ℕ) (h : i < df.length) :
    ((trainXY df).2).getD i 0 = (df.getD i ⟨[], 0⟩).close ∧
    (trainXY df).1.length = (trainXY df).2.length :=
  ⟨getD_map_close df i h, by simp [trainXY]⟩

theorem train_target_same_step_w :
    0 < df2.length ∧
      (((trainXY df2).2).getD 0 0 = (df2.getD 0 ⟨[], 0⟩).close ∧
        (trainXY df2).1.length = (trainXY df2).2.length) :=
  ⟨by decide, train_target_same_step df2 0 (by decide)⟩

/-- C3 counterexample: on a concrete two-row matrix the code's target
sequence is the same-step closes `[100, 101]`, not the next-step closes
`[101]` the claim describes. -/
theorem train_target_not_next_step_cex :
    (trainXY df2).2 = [100, 101] ∧ specNextStepTargets df2 = [101] ∧
    (trainXY df2).2 ≠ specNextStepTargets df2 :=
  ⟨rfl, rfl, by decide⟩

/-- C4 (amended): training in the final variant fails exactly when fewer
than 21 closes are available (usable rows < 2, making the 80% training
slice empty) — there is no 30-row `InsufficientData` floor — and on failure
the model-driven forecast returns `None` rather than falling back to the
heuristic. -/
theorem insufficient_data_threshold :
    (∀ (fitted : ModelInfo) (n : ℕ),
        (trainModelFinal fitted n).isSome = true ↔ 21 ≤ n) ∧
    ∀ (fitted : ModelInfo) (n days : ℕ), n < 21 →
      predictFromSeriesFinal fitted n days = none := by
  constructor
  · intro _ n
    simp only [trainModelFinal, splitIndex, usableRowsFinal]
    split_ifs with hc <;> simp <;> omega
  · intro fitted n days hn
    unfold predictFromSeriesFinal trainModelFinal splitIndex usableRowsFinal
    rw [if_neg (by omega)]
    rfl

theorem insufficient_data_threshold_w :
    (3 : ℕ) < 21 ∧ predictFromSeriesFinal mi0 3 5 = none :=
  ⟨by norm_num, insufficient_data_threshold.2 mi0 3 5 (by norm_num)⟩

/-- C4 counterexample: a series of length 43 leaves 24 usable rows —
below the claimed 30-row floor — yet training succeeds (no
`InsufficientData` failure); and for the length-3 scenario the pipeline
returns `None`: no full-length fallback PredictionStep sequence exists. -/
theorem no_thirty_row_floor_cex :
    usableRowsFinal 43 = 24 ∧ (24 : ℕ) < 30 ∧
    (trainModelFinal mi0 43).isSome = true ∧
    predictFromSeriesFinal mi0 3 5 = none :=
  ⟨rfl, by norm_num, rfl, rfl⟩

/-- C8: the feature matrix is split chronologically at the fixed 80/20
ratio with no shuffling — the training slice is exactly the first
`⌊0.8·n⌋` rows in original order, the held-out slice is exactly the
remaining trailing rows (their concatenation is the original matrix), and
the reported MAE is computed only on the trailing slice. -/
theorem chrono_split_no_shuffle (f : List ℚ → ℚ) (rows : List Row) :
    (trainEvalSplit f rows).1 = rows.take (splitIndex rows.length) ∧
    (trainEvalSplit f rows).2.1 = rows.drop (splitIndex rows.length) ∧
    (trainEvalSplit f rows).1 ++ (trainEvalSplit f rows).2.1 = rows ∧
    (trainEvalSplit f rows).1.length = min (splitIndex rows.length) rows.length ∧
    (trainEvalSplit f rows).2.2 = maeOn f (rows.drop (splitIndex rows.length)) ∧
    splitIndex rows.length = Nat.floor ((8 : ℚ) / 10 * (rows.length : ℚ)) := by
  refine ⟨rfl, rfl, List.take_append_drop _ _, List.length_take _ _, rfl, ?_⟩
  have hcast : (8 : ℚ) / 10 * (rows.length : ℚ)
      = ((4 * rows.length : ℕ) : ℚ) / ((5 : ℕ) : ℚ) := by
    push_cast
    ring
  rw [hcast, Nat.floor_div_nat, Nat.floor_natCast]
  rfl

/-- C9: `predict_future` uses `self.models` as a get-or-train cache — a hit
skips training entirely and leaves the cache unchanged, returning the
forecast built from the cached entry; a miss trains, writes the entry, and
the forecast is built from the freshly written entry; an immediately
following call for the same symbol is a pure hit observing the identical
entry (same model, features, MAE, stored last close); and a symbol never
has more than one cache entry. -/
theorem cache_get_or_train :
    (∀ (c : Cache) (s : String) (tr : Option ModelInfo) (d : ℕ)
        (mi : ModelInfo), lookupCache c s = some mi →
        predictFutureOpt c s tr d = (c, false, some (forecastOutOpt mi d))) ∧
    (∀ (c : Cache) (s : String) (mi : ModelInfo) (tr : Option ModelInfo)
        (d : ℕ), lookupCache c s = none →
        predictFutureOpt c s (some mi) d
          = (setEntry c s mi, true, some (forecastOutOpt mi d)) ∧
        predictFutureOpt (setEntry c s mi) s tr d
          = (setEntry c s mi, false, some (forecastOutOpt mi d))) ∧
    ∀ (c : Cache) (s : String) (mi : ModelInfo),
      keyCount (setEntry c s mi) s = 1 := by
  refine ⟨?_, ?_, ?_⟩
  · intro c s tr d mi h
    unfold predictFutureOpt
    rw [h]
  · intro c s mi tr d h
    have hl : lookupCache (setEntry c s mi) s = some mi := by
      unfold setEntry lookupCache
      rw [if_pos rfl]
    constructor
    · unfold predictFutureOpt
      rw [h]
    · unfold predictFutureOpt
      rw [hl]
  · intro c s mi
    have hfalse : ∀ p : String × ModelInfo,
        (decide (p.1 = s) && decide (¬p.1 = s)) = false := by
      intro p
      by_cases hp : p.1 = s <;> simp [hp]
    simp only [keyCount, setEntry, List.filter_cons, decide_eq_true_eq]
    rw [if_pos trivial, List.filter_filter]
    simp only [ne_eq, hfalse, List.filter_false, List.length_cons,
      List.length_nil]

theorem cache_get_or_train_w :
    predictFutureOpt [] "USDJPY=X" (some mi0) 1
      = (setEntry [] "USDJPY=X" mi0, true, some (forecastOutOpt mi0 1)) ∧
    predictFutureOpt (setEntry [] "USDJPY=X" mi0) "USDJPY=X" none 1
      = (setEntry [] "USDJPY=X" mi0, false, some (forecastOutOpt mi0 1)) :=
  cache_get_or_train.2.1 [] "USDJPY=X" mi0 none 1 rfl

/-- Closed form of the final-variant loop: a stateless map over the day
offsets (nothing is rolled forward between iterations). -/
theorem predictLoopFinal_eq (model : List ℚ → ℚ) (latest : List ℚ) (lc : ℚ)
    (n : ℕ) : ∀ day : ℕ,
    predictLoopFinal model latest lc day n
      = (List.range' day n).map fun d =>
          ⟨d, model latest, clampPred (1 / 20) lc (model latest),
            clampPred (1 / 20) lc (model latest) - lc,
            (clampPred (1 / 20) lc (model latest) - lc) / lc⟩ := by
  induction n with
  | zero => intro day; rfl
  | succ m ih =>
    intro day
    simp only [predictLoopFinal, List.range'_succ, List.map_cons, ih]

/-- The optimized loop never updates the seed feature vector: every step's
raw (pre-clamp) model output is the model applied to the same seed. -/
theorem predictLoopOpt_raw (model : List ℚ → ℚ) (latest : List ℚ) :
    ∀ (n day : ℕ) (cur : ℚ), ∀ s ∈ predictLoopOpt model latest day n cur,
      s.raw = model latest := by
  intro n
  induction n with
  | zero =>
    intro day cur s hs
    simp [predictLoopOpt] at hs
  | succ m ih =>
    intro day cur s hs
    simp only [predictLoopOpt, List.mem_cons] at hs
    rcases hs with rfl | hs
    · rfl
    · exact ih (day + 1) _ s hs

/-- C10: in both model-driven variants the seed feature vector is never
updated, so the raw (pre-clamp) model prediction is the same for every day
of the horizon; in the lightweight (final) variant, which also never rolls
the baseline forward, every step carries the same predicted price,
absolute change and change rate, differing only in the day offset / date
(which run 1, 2, …, horizon). -/
theorem seed_constant_forecast (mi : ModelInfo) (days : ℕ) :
    (∀ s ∈ forecastOptSteps mi days, s.raw = mi.model mi.lastData) ∧
    (forecastFinalSteps mi days).length = days ∧
    (forecastFinalSteps mi days).map PredStep.day = List.range' 1 days ∧
    ∀ s ∈ forecastFinalSteps mi days,
      s.raw = mi.model mi.lastData ∧
      s.predictedPrice = clampPred (1 / 20) mi.lastClose (mi.model mi.lastData) ∧
      s.change
        = clampPred (1 / 20) mi.lastClose (mi.model mi.lastData) - mi.lastClose ∧
      s.changeRate
        = (clampPred (1 / 20) mi.lastClose (mi.model mi.lastData) - mi.lastClose)
            / mi.lastClose := by
  refine ⟨fun s hs => predictLoopOpt_raw _ _ days 1 _ s hs, ?_, ?_, ?_⟩
  · rw [forecastFinalSteps, predictLoopFinal_eq]
    simp
  · rw [forecastFinalSteps, predictLoopFinal_eq]
    simp [List.map_map, Function.comp_def]
  · intro s hs
    rw [forecastFinalSteps, predictLoopFinal_eq] at hs
    simp only [List.mem_map] at hs
    obtain ⟨d, _, rfl⟩ := hs
    exact ⟨rfl, rfl, rfl, rfl⟩

/-- Python decimal rounding of a nonnegative value is nonnegative. -/
theorem pyRound_nonneg (n : ℕ) (q : ℚ) (h : 0 ≤ q) : 0 ≤ pyRound n q := by
  simp only [pyRound]
  have hs : (0 : ℚ) ≤ q * 10 ^ n := by positivity
  have hf : (0 : ℤ) ≤ ⌊q * 10 ^ n⌋ := Int.floor_nonneg.mpr hs
  refine div_nonneg ?_ (by positivity)
  have hr : (0 : ℤ) ≤
      (if 1 / 2 < q * 10 ^ n - ⌊q * 10 ^ n⌋ then ⌊q * 10 ^ n⌋ + 1
       else if q * 10 ^ n - ⌊q * 10 ^ n⌋ < 1 / 2 then ⌊q * 10 ^ n⌋
       else if ⌊q * 10 ^ n⌋ % 2 = 0 then ⌊q * 10 ^ n⌋
       else ⌊q * 10 ^ n⌋ + 1) := by
    split_ifs <;> omega
  exact_mod_cast hr

/-- Rounding to two decimals keeps a value below 100 at most 100. -/
theorem pyRound_le_hundred (q : ℚ) (h : q < 100) : pyRound 2 q ≤ 100 := by
  simp only [pyRound]
  have hf : ⌊q * 10 ^ 2⌋ < 10000 := by
    rw [Int.floor_lt]
    push_cast
    nlinarith
  have hr :
      (if 1 / 2 < q * 10 ^ 2 - ⌊q * 10 ^ 2⌋ then ⌊q * 10 ^ 2⌋ + 1
       else if q * 10 ^ 2 - ⌊q * 10 ^ 2⌋ < 1 / 2 then ⌊q * 10 ^ 2⌋
       else if ⌊q * 10 ^ 2⌋ % 2 = 0 then ⌊q * 10 ^ 2⌋
       else ⌊q * 10 ^ 2⌋ + 1) ≤ 10000 := by
    split_ifs <;> omega
  calc ((if 1 / 2 < q * 10 ^ 2 - ⌊q * 10 ^ 2⌋ then ⌊q * 10 ^ 2⌋ + 1
       else if q * 10 ^ 2 - ⌊q * 10 ^ 2⌋ < 1 / 2 then ⌊q * 10 ^ 2⌋
       else if ⌊q * 10 ^ 2⌋ % 2 = 0 then ⌊q * 10 ^ 2⌋
       else ⌊q * 10 ^ 2⌋ + 1 : ℤ) : ℚ) / 10 ^ 2
      ≤ (10000 : ℚ) / 10 ^ 2 := by
        apply div_le_div_of_nonneg_right ?_ (by norm_num)
        exact_mod_cast hr
    _ = 100 := by norm_num

/-- Every element of the gains list is nonnegative. -/
theorem gainsOf_nonneg (rates : List ℚ) : ∀ x ∈ gainsOf rates, 0 ≤ x := by
  intro x hx
  simp only [gainsOf, List.mem_map] at hx
  obtain ⟨c, _, rfl⟩ := hx
  split_ifs with hc
  · exact hc.le
  · exact le_rfl

/-- Every element of the losses list is nonnegative. -/
theorem lossesOf_nonneg (rates : List ℚ) : ∀ x ∈ lossesOf rates, 0 ≤ x := by
  intro x hx
  simp only [lossesOf, List.mem_map] at hx
  obtain ⟨c, _, rfl⟩ := hx
  split_ifs
  · exact le_rfl
  · exact abs_nonneg c

/-- The trailing-window average gain is nonnegative. -/
theorem avgGainOf_nonneg (rates : List ℚ) : 0 ≤ avgGainOf rates := by
  unfold avgGainOf
  split_ifs
  · norm_num
  · refine div_nonneg (List.sum_nonneg fun x hx => ?_) (by positivity)
    exact gainsOf_nonneg rates x (List.drop_subset _ _ hx)

/-- The trailing-window average loss is nonnegative. -/
theorem avgLossOf_nonneg (rates : List ℚ) : 0 ≤ avgLossOf rates := by
  unfold avgLossOf
  split_ifs
  · norm_num
  · refine div_nonneg (List.sum_nonneg fun x hx => ?_) (by positivity)
    exact lossesOf_nonneg rates x (List.drop_subset _ _ hx)

/-- RS is nonnegative: the ratio of two nonnegative averages (the
division-by-zero guard yields 1). -/
theorem rsOf_nonneg (rates : List ℚ) : 0 ≤ rsOf rates := by
  unfold rsOf
  split_ifs
  · exact div_nonneg (avgGainOf_nonneg rates) (avgLossOf_nonneg rates)
  · norm_num

/-- The raw RSI value lies in `[0, 100)`. -/
theorem rsiRawOf_bounds (rates : List ℚ) :
    0 ≤ rsiRawOf rates ∧ rsiRawOf rates < 100 := by
  have hrs := rsOf_nonneg rates
  have h1 : (0 : ℚ) < 1 + rsOf rates := by linarith
  unfold rsiRawOf
  constructor
  · have hle : 100 / (1 + rsOf rates) ≤ 100 := by
      rw [div_le_iff₀ h1]
      nlinarith
    linarith
  · have hpos : 0 < 100 / (1 + rsOf rates) := by positivity
    linarith

/-- C5: for every input price series the Indicator Engine's RSI value lies
within [0, 100]; the average gain/loss computation is guarded (`avg_loss = 0`
falls back to `rs = 1`), so the RSI is always defined. -/
theorem rsi_within_bounds (rates : List ℚ) :
    0 ≤ (calculateTechnicalIndicators rates).rsi ∧
    (calculateTechnicalIndicators rates).rsi ≤ 100 := by
  have hb := rsiRawOf_bounds (paddedRates rates)
  exact ⟨pyRound_nonneg 2 _ hb.1, pyRound_le_hundred _ hb.2⟩

/-- The clamp bounds the recorded change rate by the ceiling: when the raw
rate exceeds it, the clipped price lands exactly on the ceiling with the
sign preserved; otherwise the raw rate was already within the bound. -/
theorem clampPred_rate_le (ceiling cur raw : ℚ) (hcur : 0 < cur)
    (hceil : 0 < ceiling) :
    |(clampPred ceiling cur raw - cur) / cur| ≤ ceiling := by
  have hne : cur ≠ 0 := ne_of_gt hcur
  simp only [clampPred]
  split_ifs with h hpos
  · have heq : (cur * (1 + ceiling) - cur) / cur = ceiling := by
      field_simp
      ring
    rw [heq, abs_of_pos hceil]
  · have heq : (cur * (1 + -ceiling) - cur) / cur = -ceiling := by
      field_simp
      ring
    rw [heq, abs_neg, abs_of_pos hceil]
  · exact not_lt.mp h

/-- The clamped price stays positive when the baseline is positive and the
ceiling is below 1. -/
theorem clampPred_pos (ceiling cur raw : ℚ) (hcur : 0 < cur)
    (hceil : 0 < ceiling) (hlt : ceiling < 1) :
    0 < clampPred ceiling cur raw := by
  have hb := clampPred_rate_le ceiling cur raw hcur hceil
  have h1 : -ceiling ≤ (clampPred ceiling cur raw - cur) / cur :=
    (abs_le.mp hb).1
  have h2 : -ceiling * cur ≤ clampPred ceiling cur raw - cur := by
    have hmul := mul_le_mul_of_nonneg_right h1 hcur.le
    rwa [div_mul_cancel₀ _ (ne_of_gt hcur)] at hmul
  nlinarith

/-- Every step of the optimized loop keeps its recorded change rate within
the 10% ceiling (the rolling baseline stays positive). -/
theorem predictLoopOpt_rate_bound (model : List ℚ → ℚ) (latest : List ℚ) :
    ∀ (n day : ℕ) (cur : ℚ), 0 < cur →
      ∀ s ∈ predictLoopOpt model latest day n cur, |s.changeRate| ≤ 1 / 10 := by
  intro n
  induction n with
  | zero =>
    intro day cur _ s hs
    simp [predictLoopOpt] at hs
  | succ m ih =>
    intro day cur hcur s hs
    simp only [predictLoopOpt, List.mem_cons] at hs
    rcases hs with rfl | hs
    · exact clampPred_rate_le _ _ _ hcur (by norm_num)
    · exact ih (day + 1) _ (clampPred_pos _ _ _ hcur (by norm_num) (by norm_num))
        s hs

/-- C1 (amended): the clamp rule holds for the model-driven strategy in both
profiles — every PredictionStep of `predict_future` satisfies
`|change_rate| ≤ 0.1` (full profile) resp. `|change_rate| ≤ 0.05`
(lightweight profile), with clipping to `current × (1 ± ceiling)` when the
raw prediction exceeds the ceiling.  The heuristic strategy applies no clamp
(see the counterexample). -/
theorem clamp_invariant_model_strategies (mi : ModelInfo) (days : ℕ)
    (hpos : 0 < mi.lastClose) :
    (∀ s ∈ forecastOptSteps mi days, |s.changeRate| ≤ 1 / 10) ∧
    (∀ s ∈ forecastFinalSteps mi days, |s.changeRate| ≤ 1 / 20) := by
  constructor
  · exact fun s hs => predictLoopOpt_rate_bound _ _ days 1 _ hpos s hs
  · intro s hs
    rw [forecastFinalSteps, predictLoopFinal_eq] at hs
    simp only [List.mem_map] at hs
    obtain ⟨d, _, rfl⟩ := hs
    exact clampPred_rate_le _ _ _ hpos (by norm_num)

theorem clamp_invariant_model_strategies_w :
    (0 : ℚ) < mi0.lastClose ∧
    ((∀ s ∈ forecastOptSteps mi0 2, |s.changeRate| ≤ 1 / 10) ∧
      ∀ s ∈ forecastFinalSteps mi0 2, |s.changeRate| ≤ 1 / 20) :=
  ⟨by norm_num [mi0], clamp_invariant_model_strategies mi0 2 (by norm_num [mi0])⟩

/-- C1 counterexample: the heuristic strategy never clips.  On the
`trendRates` history (MA5 = 2 > MA10 = 1.8333, RSI = 50, trend multiplier
1.001) with a zero volatility draw and `days_ahead = 120` (reachable: the
`days` HTTP query parameter is passed through unbounded), the predicted
rate's change rate exceeds 10% — above both configured ceilings — and no
clipping occurs. -/
theorem heuristic_exceeds_ceiling_cex :
    (1 : ℚ) / 10
      < ((predictCore 150 trendRates 120 0).predictedRate - 150) / 150 := by
  have hpad : paddedRates trendRates = trendRates := by
    norm_num [paddedRates, trendRates]
  have hlosses : lossesOf trendRates = [0, 0, 0, 0, 0] := by
    norm_num [lossesOf, diffsOf, trendRates]
  have havgL : avgLossOf trendRates = 0 := by
    simp [avgLossOf, hlosses, lastN]
  have hrsi : rsiRawOf trendRates = 50 := by
    simp only [rsiRawOf, rsOf, havgL]
    norm_num
  have h1 : pyRound 4 ((lastN 5 trendRates).sum / 5) = 2 := by
    norm_num [lastN, trendRates, pyRound]
  have h2 : pyRound 4 ((lastN 10 trendRates).sum
      / ((min 10 trendRates.length : ℕ) : ℚ)) = 18333 / 10000 := by
    norm_num [lastN, trendRates, pyRound]
  have h3 : pyRound 2 (rsiRawOf trendRates) = 50 := by
    rw [hrsi]
    norm_num [pyRound]
  have hind : calculateTechnicalIndicators trendRates
      = ⟨2, 18333 / 10000, 50⟩ := by
    simp only [calculateTechnicalIndicators, hpad]
    rw [h1, h2, h3]
  have htf : trendFactor ⟨2, 18333 / 10000, 50⟩ = 1001 / 1000 := by
    norm_num [trendFactor]
  have hpred : (predictCore 150 trendRates 120 0).predictedRate
      = 150 * (1001 / 1000 : ℚ) ^ 120 := by
    simp only [predictCore, hind, htf]
    ring
  rw [hpred]
  have hpow : (1 : ℚ) + (120 : ℚ) * (1 / 1000) ≤ (1 + 1 / 1000) ^ 120 := by
    have := one_add_mul_le_pow (a := (1 / 1000 : ℚ)) (by norm_num) 120
    exact_mod_cast this
  have h1001 : ((1 : ℚ) + 1 / 1000) = 1001 / 1000 := by norm_num
  rw [h1001] at hpow
  have heq : (150 * (1001 / 1000 : ℚ) ^ 120 - 150) / 150
      = (1001 / 1000 : ℚ) ^ 120 - 1 := by
    ring
  rw [heq]
  linarith

end FxApp
